import Mathlib

/-!
Verification of the sendtx-p2p broadcast orchestrator
(src/src/sendtx-p2p.cpp) against its design specification.

The program is callback-driven: a protocol session delivers channel-ready,
connection-count and start/stop completion events to static handler
functions that share one process-wide boolean `stopped`.  We embed it as a
functional state machine: `OrchState` carries the observable program state
(the stop flag, whether a one-shot channel subscription is currently armed,
a counter of subscription registrations, the ordered log of send attempts,
the log lines, and whether session stop was called), each C++ handler
becomes a pure state transformer, and an asynchronous run is a fold of a
`step` function over a list of delivered events.  Transactions and channels
are opaque payloads, modelled as natural-number identifiers; error codes
become booleans (`true` = error).  The logging sinks are embedded
separately as pure formatting functions producing the lines written to the
bound file stream and to the console stream.
-/

/-- One established peer channel, identified opaquely. -/
abbrev ChannelId := Nat

/-- An opaque transaction payload, identified opaquely (its hash). -/
abbrev TxId := Nat

/-- Observable state of the orchestrator: the process-wide `stopped` flag
(line 34 of the source), whether a one-shot channel subscription is armed,
how many times `subscribe_channel` has been called, the ordered list of
send attempts `(channel, transaction)`, the emitted log lines, and whether
the session `stop` has been requested. -/
structure OrchState where
  stopped : Bool
  subscribed : Bool
  subsArmed : Nat
  sends : List (ChannelId × TxId)
  logs : List String
  stopCalled : Bool
deriving DecidableEq

/-- Initial program state: `static bool stopped = false;` and no
subscription, no sends, no stop request. -/
def initState : OrchState :=
  { stopped := false, subscribed := false, subsArmed := 0,
    sends := [], logs := [], stopCalled := false }

/-- `signal_handler` (source lines 66-70): logs the signal and sets the
stop flag. -/
def signal_handler (sig : Nat) (st : OrchState) : OrchState :=
  { st with logs := st.logs ++ ["Caught signal: " ++ toString sig],
            stopped := true }

/-- `handle_start` (source lines 73-83): on error, logs a warning and sets
the stop flag; on success, logs a debug line.  It touches nothing else. -/
def handle_start (error : Bool) (st : OrchState) : OrchState :=
  if error then
    { st with logs := st.logs ++ ["Start failed"], stopped := true }
  else
    { st with logs := st.logs ++ ["Started."] }

/-- `check_connection_count` (source lines 87-97): logs the outcome, then
sets the stop flag when the fetch errored or the count reached the target
node count. -/
def check_connection_count (error : Bool)
    (connection_count node_count : Nat) (st : OrchState) : OrchState :=
  let st1 :=
    if error then { st with logs := st.logs ++ ["Check failed"] }
    else { st with logs :=
            st.logs ++ [toString connection_count ++ " CONNECTIONS"] }
  if error || connection_count ≥ node_count then
    { st1 with stopped := true }
  else st1

/-- The `handle_send` lambda inside `send_tx` (source lines 112-118): the
send-completion callback logs success or failure and nothing more. -/
def handle_send (error : Bool) (st : OrchState) : OrchState :=
  if error then { st with logs := st.logs ++ ["Send failed"] }
  else { st with logs := st.logs ++ ["Sent"] }

/-- `send_tx` (source lines 100-123), the channel-ready handler.  On a
setup error it logs and sets the stop flag, arming nothing.  Otherwise it
logs the transaction hash, records one send attempt on the delivered
channel, and re-registers the channel subscription exactly once
(`prot.subscribe_channel(...)`, line 121). -/
def send_tx (error : Bool) (node : ChannelId) (tx : TxId)
    (st : OrchState) : OrchState :=
  if error then
    { st with logs := st.logs ++ ["Setup failed"], stopped := true }
  else
    { st with logs := st.logs ++ ["Sending " ++ toString tx],
              sends := st.sends ++ [(node, tx)],
              subscribed := true,
              subsArmed := st.subsArmed + 1 }

/-- An asynchronous completion delivered to the orchestrator by the worker
pool: an OS signal, the start callback, a channel-ready event, a
connection-count poll result, or a send-completion. -/
inductive Event where
  | signal (n : Nat)
  | startDone (error : Bool)
  | channel (error : Bool) (node : ChannelId)
  | poll (error : Bool) (count : Nat)
  | sendComplete (error : Bool)
deriving DecidableEq

/-- Dispatch of one delivered event.  A channel event reaches `send_tx`
only when a one-shot subscription is armed, and delivery consumes the
subscription (re-arming is `send_tx`'s own job); all other completions run
their handler unconditionally. -/
def step (node_count : Nat) (tx : TxId) (st : OrchState)
    (e : Event) : OrchState :=
  match e with
  | Event.signal n => signal_handler n st
  | Event.startDone err => handle_start err st
  | Event.channel err c =>
      if st.subscribed then
        send_tx err c tx { st with subscribed := false }
      else st
  | Event.poll err cnt => check_connection_count err cnt node_count st
  | Event.sendComplete err => handle_send err st

/-- The channel delivered by a channel-ready event, if the event is one. -/
def deliveredChannel : Event → Option ChannelId
  | Event.channel _ c => some c
  | _ => none

/-- The maximum-outbound-connections cap computed by `invoke`
(source line 182): the target node count times the fixed multiplier 6.
The target is a plain non-negative integer per the configuration
contract. -/
def max_outbound_cap (node_count : Nat) : Nat :=
  node_count * 6

/-- The synchronous calls `invoke` makes, in source order
(lines 169-203): bind logging, cap outbound connections, start the
session, register the first channel subscription, install signal
handlers, run the poll loop, stop the session. -/
inductive InvokeAction where
  | bind_logging_act
  | set_max_outbound (n : Nat)
  | start_call
  | subscribe_call
  | set_signal_handlers
  | poll_loop
  | stop_call
deriving DecidableEq

/-- The sequence of calls `invoke` performs, in the order of the source. -/
def invoke_actions (node_count : Nat) : List InvokeAction :=
  [ InvokeAction.bind_logging_act,
    InvokeAction.set_max_outbound (max_outbound_cap node_count),
    InvokeAction.start_call,
    InvokeAction.subscribe_call,
    InvokeAction.set_signal_handlers,
    InvokeAction.poll_loop,
    InvokeAction.stop_call ]

/-- Effect on orchestrator state of `invoke`'s synchronous setup
(source lines 185-192): `prot.start` is issued (its result arrives later
as a `startDone` event) and then, unconditionally, the first channel
subscription is registered. -/
def invoke_setup (st : OrchState) : OrchState :=
  { st with subscribed := true, subsArmed := st.subsArmed + 1 }

/-- The `ignore_stop` lambda (source line 202): the completion callback
of session stop, which discards its error code and does nothing. -/
def ignore_stop (error : Bool) (st : OrchState) : OrchState := st

/-- `prot.stop(ignore_stop)` (source line 203): request session teardown;
the completion result is discarded by `ignore_stop`. -/
def prot_stop (st : OrchState) : OrchState :=
  { st with stopCalled := true }

/-- The command's exit status type (`console_result`). -/
inductive ConsoleResult where
  | okay
  | failure
  | invalid
deriving DecidableEq

/-- `sendtx_p2p::invoke` (source lines 157-206) as a run over a list of
delivered events.  `transactions.front()` is taken unconditionally
(line 167, marked in the source as a hack requiring one element); on an
empty transactions argument the access is undefined behaviour, embedded
as `none`.  Otherwise the setup registers the first subscription, the
delivered events are processed, the session is stopped best-effort, and
`console_result::okay` is returned. -/
def invoke_run (transactions : List TxId) (node_count : Nat)
    (events : List Event) : Option (OrchState × ConsoleResult) :=
  match transactions with
  | [] => none
  | tx :: _ =>
      some (prot_stop
              (List.foldl (step node_count tx) (invoke_setup initState)
                events),
            ConsoleResult.okay)

/-! ## Logging sinks -/

/-- The five logger severities the source binds
(`log_debug`, `log_info`, `log_warning`, `log_error`, `log_fatal`). -/
inductive LogLevel where
  | debug
  | info
  | warning
  | error
  | fatal
deriving DecidableEq

/-- What one sink invocation emits: the line written to its bound file
stream, if any, and the line written to the console (stderr), if any. -/
structure Emit where
  fileLine : Option String
  cerrLine : Option String
deriving DecidableEq

/-- `output_to_file` (source lines 36-48): an empty body emits nothing;
otherwise the level representation, then the bracketed domain when the
domain is non-empty, then a colon-space and the body, written to the
file stream only. -/
def output_to_file (level_repr : LogLevel → String) (level : LogLevel)
    (domain body : String) : Emit :=
  if body = "" then { fileLine := none, cerrLine := none }
  else
    let s := level_repr level
    let s := if domain = "" then s else s ++ " [" ++ domain ++ "]"
    { fileLine := some (s ++ ": " ++ body), cerrLine := none }

/-- `output_cerr_and_file` (source lines 50-64): an empty body emits
nothing; otherwise the same formatted line is built, but the source
writes it only to `std::cerr` — the `file` stream parameter is never
written, so `fileLine` is `none`. -/
def output_cerr_and_file (level_repr : LogLevel → String) (level : LogLevel)
    (domain body : String) : Emit :=
  if body = "" then { fileLine := none, cerrLine := none }
  else
    let s := level_repr level
    let s := if domain = "" then s else s ++ " [" ++ domain ++ "]"
    { fileLine := none, cerrLine := some (s ++ ": " ++ body) }

/-- A concrete level representation used for evaluating the sinks. -/
def sample_repr : LogLevel → String
  | LogLevel.debug => "DEBUG"
  | LogLevel.info => "INFO"
  | LogLevel.warning => "WARNING"
  | LogLevel.error => "ERROR"
  | LogLevel.fatal => "FATAL"

/-- The files opened by `bind_logging`. -/
inductive FileRef where
  | debug_file
  | error_file
deriving DecidableEq

/-- The output function bound to a logger: the library default (left
untouched), `output_to_file` over a given file, or `output_cerr_and_file`
over a given file. -/
inductive OutputFn where
  | default_fn
  | to_file (f : FileRef)
  | cerr_and_file (f : FileRef)
deriving DecidableEq

/-- Which output function each severity channel currently uses. -/
structure Bindings where
  debug_fn : OutputFn
  info_fn : OutputFn
  warning_fn : OutputFn
  error_fn : OutputFn
  fatal_fn : OutputFn
deriving DecidableEq

/-- All five channels on the library default. -/
def initialBindings : Bindings :=
  { debug_fn := OutputFn.default_fn, info_fn := OutputFn.default_fn,
    warning_fn := OutputFn.default_fn, error_fn := OutputFn.default_fn,
    fatal_fn := OutputFn.default_fn }

/-- `bind_logging` (source lines 125-155): when the debug path is
non-empty, debug and info are both bound to `output_to_file` over the
debug file; when the error path is non-empty, warning is bound to
`output_to_file` over the error file while error and fatal are bound to
`output_cerr_and_file` over the error file; an empty path leaves its
channels untouched. -/
def bind_logging (debug error : String) (b : Bindings) : Bindings :=
  let b1 :=
    if debug = "" then b
    else { b with debug_fn := OutputFn.to_file FileRef.debug_file,
                  info_fn := OutputFn.to_file FileRef.debug_file }
  if error = "" then b1
  else { b1 with warning_fn := OutputFn.to_file FileRef.error_file,
                 error_fn := OutputFn.cerr_and_file FileRef.error_file,
                 fatal_fn := OutputFn.cerr_and_file FileRef.error_file }

/-- What a bound output function emits for a message: the library default
is external and not modelled. -/
def dispatch (fn : OutputFn) (level_repr : LogLevel → String)
    (level : LogLevel) (domain body : String) : Option Emit :=
  match fn with
  | OutputFn.default_fn => none
  | OutputFn.to_file _ => some (output_to_file level_repr level domain body)
  | OutputFn.cerr_and_file _ =>
      some (output_cerr_and_file level_repr level domain body)

/-! ## Helper lemmas -/

/-- Characterisation of the stop flag after one step: an event can only
turn the flag on, and does so exactly for a signal, an erroring start
callback, an erroring channel delivery that reaches `send_tx`, or a poll
that errors or meets the target. -/
theorem step_stopped_char (nc : Nat) (tx : TxId) (st : OrchState)
    (e : Event) :
    (step nc tx st e).stopped =
      (st.stopped ||
        (match e with
         | Event.signal _ => true
         | Event.startDone err => err
         | Event.channel err _ => err && st.subscribed
         | Event.poll err cnt => err || decide (nc ≤ cnt)
         | Event.sendComplete _ => false)) := by
  cases e with
  | signal n => simp [step, signal_handler]
  | startDone err => cases err <;> simp [step, handle_start]
  | channel err c =>
      cases hsub : st.subscribed <;> cases err <;> simp [step, send_tx, hsub]
  | poll err cnt =>
      cases err <;> simp [step, check_connection_count] <;>
        by_cases hc : nc ≤ cnt <;> simp [hc]
  | sendComplete err => cases err <;> simp [step, handle_send]

/-- A step on a non-channel event changes neither the send log, nor the
subscription-arming counter, nor the armed-subscription flag. -/
theorem step_frame_non_channel (nc : Nat) (tx : TxId) (st : OrchState)
    (e : Event) (h : deliveredChannel e = none) :
    (step nc tx st e).sends = st.sends
    ∧ (step nc tx st e).subsArmed = st.subsArmed
    ∧ (step nc tx st e).subscribed = st.subscribed := by
  cases e with
  | signal n => simp [step, signal_handler]
  | startDone err => cases err <;> simp [step, handle_start]
  | channel err c => simp [deliveredChannel] at h
  | poll err cnt =>
      cases err <;> simp [step, check_connection_count] <;>
        by_cases hc : nc ≤ cnt <;> simp [hc]
  | sendComplete err => cases err <;> simp [step, handle_send]

/-! ## Claim theorems -/

/-- Claim C1: for every sequence of channel-ready events delivered
without error to the running orchestrator (one whose subscription is
armed), exactly one send attempt of the transaction occurs per delivered
channel, in order, none duplicated and none dropped, and the handler
re-arms the subscription exactly once per delivery, so the subscription
is still armed afterwards for later channels. -/
theorem broadcast_single_send (nc : Nat) (tx : TxId) (events : List Event)
    (st0 : OrchState)
    (hch : ∀ c, Event.channel true c ∉ events)
    (hs : st0.subscribed = true) :
    (List.foldl (step nc tx) st0 events).sends
        = st0.sends
          ++ (events.filterMap deliveredChannel).map (fun c => (c, tx))
    ∧ (List.foldl (step nc tx) st0 events).subsArmed
        = st0.subsArmed + (events.filterMap deliveredChannel).length
    ∧ (List.foldl (step nc tx) st0 events).subscribed = true := by
  induction events generalizing st0 with
  | nil => simp [hs]
  | cons e es ih =>
    have hch2 : ∀ c, Event.channel true c ∉ es :=
      fun c hc => hch c (List.mem_cons_of_mem _ hc)
    rw [List.foldl_cons]
    by_cases hce : deliveredChannel e = none
    · have hfr := step_frame_non_channel nc tx st0 e hce
      obtain ⟨ih1, ih2, ih3⟩ :=
        ih (step nc tx st0 e) hch2 (by rw [hfr.2.2, hs])
      refine ⟨?_, ?_, ih3⟩
      · rw [ih1, hfr.1, List.filterMap_cons, hce]
      · rw [ih2, hfr.2.1, List.filterMap_cons, hce]
    · cases e with
      | signal n => simp [deliveredChannel] at hce
      | startDone err => simp [deliveredChannel] at hce
      | poll err cnt => simp [deliveredChannel] at hce
      | sendComplete err => simp [deliveredChannel] at hce
      | channel err c =>
          cases err with
          | true => exact absurd (List.mem_cons_self _ _) (hch c)
          | false =>
              obtain ⟨ih1, ih2, ih3⟩ :=
                ih (step nc tx st0 (Event.channel false c)) hch2
                  (by simp [step, hs, send_tx])
              refine ⟨?_, ?_, ih3⟩
              · rw [ih1]
                simp [step, hs, send_tx, deliveredChannel]
              · rw [ih2]
                simp [step, hs, send_tx, deliveredChannel]
                omega

/-- Witness for C1: a concrete run delivering channels 1 and 2 without
error, with a poll in between, records exactly the two sends in order. -/
theorem broadcast_single_send_witness :
    (List.foldl (step 3 9) (invoke_setup initState)
        [Event.channel false 1, Event.poll false 0,
         Event.channel false 2]).sends
      = [(1, 9), (2, 9)] := by
  have h := broadcast_single_send 3 9
      [Event.channel false 1, Event.poll false 0, Event.channel false 2]
      (invoke_setup initState)
      (by intro c hc; simp [List.mem_cons] at hc) rfl
  simpa [invoke_setup, initState, deliveredChannel] using h.1

/-- Claim C2 (counterexample): in a run whose start callback is invoked
with an error, a channel subscription has nevertheless been registered —
`invoke` arms the first subscription unconditionally right after calling
start — so the claim that zero subscriptions are ever armed is false. -/
theorem start_failure_subscription_cex :
    (invoke_run [7] 1 [Event.startDone true]).map
        (fun p => (p.1.stopped, p.1.subsArmed, p.1.subscribed))
      = some (true, 1, true) := rfl

/-- Claim C2 (amended): when the start callback is invoked with an error
it sets the stop flag immediately and itself arms no subscription and
records no send; the single subscription present in such a run is the one
`invoke` registers unconditionally during setup. -/
theorem start_failure_sets_stop :
    (∀ st : OrchState,
        (handle_start true st).stopped = true
        ∧ (handle_start true st).subscribed = st.subscribed
        ∧ (handle_start true st).subsArmed = st.subsArmed
        ∧ (handle_start true st).sends = st.sends)
    ∧ (invoke_setup initState).subsArmed = 1 := by
  refine ⟨fun st => ?_, rfl⟩
  simp [handle_start]

/-- Claim C3: the connection-count completion handler sets the stop flag
exactly when the fetch errored or the count reached the target, and it
touches neither the subscription nor the send log — a poll error stops
the run just like reaching the target. -/
theorem poll_stop_condition (e : Bool) (c T : Nat) (st : OrchState)
    (h : st.stopped = false) :
    ((check_connection_count e c T st).stopped = true ↔
        (e = true ∨ T ≤ c))
    ∧ (check_connection_count e c T st).subscribed = st.subscribed
    ∧ (check_connection_count e c T st).sends = st.sends
    ∧ (check_connection_count e c T st).subsArmed = st.subsArmed := by
  cases e <;> by_cases hc : T ≤ c <;>
    simp [check_connection_count, h, hc]

/-- Witness for C3: a successful poll reporting 5 connections against
target 3 sets the stop flag. -/
theorem poll_stop_condition_witness :
    (check_connection_count false 5 3 initState).stopped = true :=
  ((poll_stop_condition false 5 3 initState rfl).1).mpr
    (Or.inr (by decide))

/-- Claim C4: the stop flag starts false, no operation ever resets it,
and from a not-yet-stopped state an event turns it on exactly when it is
a signal, an erroring start callback, an erroring channel delivery that
reaches the armed handler, or a poll that errors or meets the target;
setup and teardown leave it unchanged. -/
theorem stop_flag_lifecycle (nc : Nat) (tx : TxId) :
    initState.stopped = false
    ∧ (∀ st : OrchState, (invoke_setup st).stopped = st.stopped)
    ∧ (∀ st : OrchState, (prot_stop st).stopped = st.stopped)
    ∧ (∀ st e, st.stopped = true → (step nc tx st e).stopped = true)
    ∧ (∀ st e, st.stopped = false →
        ((step nc tx st e).stopped = true ↔
          ((∃ n, e = Event.signal n)
           ∨ e = Event.startDone true
           ∨ (∃ c, e = Event.channel true c ∧ st.subscribed = true)
           ∨ (∃ err cnt, e = Event.poll err cnt
                ∧ (err = true ∨ nc ≤ cnt))))) := by
  refine ⟨rfl, fun st => rfl, fun st => rfl, ?_, ?_⟩
  · intro st e h
    rw [step_stopped_char, h]
    simp
  · intro st e h
    rw [step_stopped_char, h]
    cases e with
    | signal n => simp
    | startDone err => cases err <;> simp
    | channel err c =>
        cases err <;> cases hsub : st.subscribed <;> simp [hsub]
    | poll err cnt =>
        cases err <;> by_cases hc : nc ≤ cnt <;> simp [hc]
    | sendComplete err => simp

/-- Witness for C4: from the initial (not stopped) state, a signal event
sets the stop flag. -/
theorem stop_flag_lifecycle_witness :
    (step 2 5 initState (Event.signal 9)).stopped = true :=
  ((stop_flag_lifecycle 2 5).2.2.2.2 initState (Event.signal 9) rfl).mpr
    (Or.inl ⟨9, rfl⟩)

/-- Claim C5 (counterexample): `invoke` performs no configuration
validation — with a target node count of 0 (violating the claimed check
that it is at least 1) the run proceeds normally and returns okay, and
with an empty transactions argument the unconditional front access hits
an empty collection (undefined behaviour, embedded as `none`). -/
theorem invoke_no_validation_cex :
    (invoke_run [7] 0 []).map Prod.snd = some ConsoleResult.okay
    ∧ invoke_run [] 5 [] = none := ⟨rfl, rfl⟩

/-- Claim C5 (amended): `invoke` takes the first transaction of the
transactions argument unconditionally and never checks the target node
count, so the run is well-defined exactly when the transactions argument
is non-empty, whatever the node count. -/
theorem invoke_front_requires_nonempty (txs : List TxId) (nc : Nat)
    (events : List Event) :
    (invoke_run txs nc events).isSome = true ↔ txs ≠ [] := by
  cases txs <;> simp [invoke_run]

/-- Witness for C5's amended theorem: a singleton transactions argument
makes the run defined even with node count 0. -/
theorem invoke_front_requires_nonempty_witness :
    (invoke_run [7] 0 []).isSome = true :=
  (invoke_front_requires_nonempty [7] 0 []).mpr (by decide)

/-- Claim C6: the maximum-outbound cap is the target node count times the
fixed constant multiplier 6 — the same constant for every target, in
exact integer arithmetic — and `invoke` performs the cap-setting call
before the call to session start. -/
theorem max_outbound_before_start (T : Nat) :
    max_outbound_cap T = T * 6
    ∧ max_outbound_cap T = T * max_outbound_cap 1
    ∧ invoke_actions T =
      [ InvokeAction.bind_logging_act,
        InvokeAction.set_max_outbound (T * 6),
        InvokeAction.start_call,
        InvokeAction.subscribe_call,
        InvokeAction.set_signal_handlers,
        InvokeAction.poll_loop,
        InvokeAction.stop_call ] := by
  refine ⟨rfl, ?_, rfl⟩
  simp [max_outbound_cap]

/-- Claim C7: whenever a run completes, the session stop was requested
(with a completion callback that discards its result) and the returned
status is okay, no matter why the run stopped. -/
theorem run_returns_okay (txs : List TxId) (nc : Nat)
    (events : List Event) (st : OrchState) (r : ConsoleResult)
    (h : invoke_run txs nc events = some (st, r)) :
    r = ConsoleResult.okay
    ∧ st.stopCalled = true
    ∧ (∀ e s, ignore_stop e s = s) := by
  cases txs with
  | nil => simp [invoke_run] at h
  | cons tx rest =>
      simp only [invoke_run, Option.some.injEq, Prod.mk.injEq] at h
      refine ⟨h.2.symm, ?_, fun e s => rfl⟩
      rw [← h.1]
      rfl

/-- Witness for C7: the empty-event run over one transaction returns
okay and has requested session stop. -/
theorem run_returns_okay_witness :
    (prot_stop (invoke_setup initState)).stopCalled = true :=
  (run_returns_okay [4] 2 [] (prot_stop (invoke_setup initState))
      ConsoleResult.okay rfl).2.1

/-- Claim C8: the per-send completion callback changes nothing but the
log stream — stop flag, subscription, arming counter, send log and
teardown request are identical before and after, for success and for
failure alike, and its dispatch as an event is exactly that callback. -/
theorem send_completion_no_effect (error : Bool) (st : OrchState) :
    (handle_send error st).stopped = st.stopped
    ∧ (handle_send error st).subscribed = st.subscribed
    ∧ (handle_send error st).subsArmed = st.subsArmed
    ∧ (handle_send error st).sends = st.sends
    ∧ (handle_send error st).stopCalled = st.stopCalled
    ∧ (∀ nc tx, step nc tx st (Event.sendComplete error)
          = handle_send error st) := by
  cases error <;> simp [handle_send, step]

/-- Claim C9: both sinks suppress empty-body messages entirely, and on a
non-empty body each emits exactly one line of the form: level
representation, then a bracketed domain exactly when the domain is
non-empty, then a colon-space and the body. -/
theorem log_line_format (r : LogLevel → String) (lv : LogLevel)
    (d b : String) :
    (b = "" →
      output_to_file r lv d b = { fileLine := none, cerrLine := none }
      ∧ output_cerr_and_file r lv d b
          = { fileLine := none, cerrLine := none })
    ∧ (b ≠ "" →
      output_to_file r lv d b =
        { fileLine := some (r lv
            ++ (if d = "" then "" else " [" ++ d ++ "]") ++ ": " ++ b),
          cerrLine := none }
      ∧ output_cerr_and_file r lv d b =
        { fileLine := none,
          cerrLine := some (r lv
            ++ (if d = "" then "" else " [" ++ d ++ "]")
            ++ ": " ++ b) }) := by
  constructor
  · intro hb
    simp [output_to_file, output_cerr_and_file, hb]
  · intro hb
    by_cases hd : d = "" <;>
      simp [output_to_file, output_cerr_and_file, hb, hd,
        String.append_assoc]

/-- Witness for C9: a concrete info message with a domain formats as
claimed, and an empty body is suppressed. -/
theorem log_line_format_witness :
    output_to_file sample_repr LogLevel.info "net" "hello"
      = { fileLine := some "INFO [net]: hello", cerrLine := none }
    ∧ output_cerr_and_file sample_repr LogLevel.warning "" ""
      = { fileLine := none, cerrLine := none } :=
  ⟨by
    have h :=
      ((log_line_format sample_repr LogLevel.info "net" "hello").2
        (by decide)).1
    simpa [sample_repr] using h,
   ((log_line_format sample_repr LogLevel.warning "" "").1 rfl).2⟩

/-- Claim C10 (code evaluation at the failing input): with an empty debug
path and error path given, `bind_logging` binds the error and fatal
channels to `output_cerr_and_file` over the error file, yet that function
writes its line only to the console — its file stream is never written —
so error and fatal messages do not reach the error file. -/
theorem error_routing_bug :
    (bind_logging "" "error.log" initialBindings).error_fn
        = OutputFn.cerr_and_file FileRef.error_file
    ∧ (bind_logging "" "error.log" initialBindings).fatal_fn
        = OutputFn.cerr_and_file FileRef.error_file
    ∧ (bind_logging "" "error.log" initialBindings).warning_fn
        = OutputFn.to_file FileRef.error_file
    ∧ dispatch (bind_logging "" "error.log" initialBindings).error_fn
        sample_repr LogLevel.error "net" "boom"
      = some { fileLine := none, cerrLine := some "ERROR [net]: boom" }
    ∧ bind_logging "" "" initialBindings = initialBindings := by
  refine ⟨rfl, rfl, rfl, ?_, rfl⟩
  rfl
